import Mathlib

/-!
Verification of the Distributed-Control-System-Architecture repository.

Shallow embedding of the C++ sources:
  - include/dcs/module.h       (Module, SensorModule, ActuatorModule, plus the
                                example file with TemperatureSensor, HeaterActuator)
  - control_system.h           (Config, ControlSystem::getModule)
  - the test file              (MockSensor, MockActuator, lifecycle test)

C++ `double` values are embedded as `ℚ` (exact arithmetic; all the claims
settled here depend only on order/field arithmetic that is exact in the
actual binary64 runs as well).  Throwing member functions are embedded as
functions returning `Except String Unit × State`: the second component is the
object state after the call, which C++ leaves unchanged when the function
throws before mutating it.
-/

namespace DCS

/-- The largest finite binary64 value, `std::numeric_limits<double>::max()`,
embedded exactly: `(2^53 - 1) * 2^971`. -/
def dblMax : ℚ := (2 ^ 53 - 1) * 2 ^ 971

/-- The C++ `enum class ModuleState` from module.h. -/
inductive ModuleState where
  | UNINITIALIZED
  | INITIALIZING
  | READY
  | RUNNING
  | PAUSED
  | ERROR
  | SHUTDOWN
  deriving DecidableEq, Repr

/-- Embeds `Module::isHealthy` from module.h:
`virtual bool isHealthy() const { return state_ == ModuleState::RUNNING; }`. -/
def isHealthy (state : ModuleState) : Bool :=
  state == ModuleState.RUNNING

/-- The C++ `struct ActuatorCommand` from module.h (the `unit` field is irrelevant to
every claim and omitted). -/
structure ActuatorCommand where
  target : String
  value : ℚ
  deriving DecidableEq, Repr

/-- The C++ `struct ActuatorModule::Limits` from module.h, with its member default
values `{-max, max, max}`. -/
structure Limits where
  minValue : ℚ := -dblMax
  maxValue : ℚ := dblMax
  maxRate : ℚ := dblMax
  deriving DecidableEq, Repr

/-- Modelled from the spec: the body of `ActuatorModule::validateCommand` is in
module.cpp, which is absent from the sources (module.h only declares it).
Spec section 4.4: `validateCommand(cmd)` "fails (returns invalid) if
`cmd.value` is outside `[minValue, maxValue]`".  The in-repo test
`ActuatorExecution` agrees: with limits `{0,100,50}` the command value `150`
is invalid. -/
def validateCommand (l : Limits) (cmd : ActuatorCommand) : Bool :=
  decide (l.minValue ≤ cmd.value) && decide (cmd.value ≤ l.maxValue)

/-- Mutable state of a `HeaterActuator` object (module.h example part):
the inherited `emergencyStop_` and `limits_` together with its own
`powerLevel_`. -/
structure HeaterState where
  limits : Limits
  emergencyStop : Bool
  powerLevel : ℚ
  deriving DecidableEq, Repr

/-- A freshly constructed `HeaterActuator`: the constructor calls
`setLimits({0.0, 100.0, 10.0})`; `emergencyStop_{false}`, `powerLevel_{0.0}`. -/
def heaterCtor : HeaterState :=
  { limits := { minValue := 0, maxValue := 100, maxRate := 10 }
    emergencyStop := false
    powerLevel := 0 }

/-- Embeds `std::abs` on the embedded doubles. -/
def absQ (x : ℚ) : ℚ :=
  if x < 0 then -x else x

/-- Embeds `HeaterActuator::execute` from module.h:
throws on `!validateCommand(cmd)`; if emergency-stopped sets `powerLevel_ = 0`
and returns; otherwise applies rate limiting with
`maxChange = limits_.maxRate * 0.01` ("convert to per-cycle change") and moves
`powerLevel_` by at most `maxChange` toward `cmd.value`. -/
def heaterExecute (s : HeaterState) (cmd : ActuatorCommand) :
    Except String Unit × HeaterState :=
  if !(validateCommand s.limits cmd) then
    (Except.error "Invalid heater command", s)
  else if s.emergencyStop then
    (Except.ok (), { s with powerLevel := 0 })
  else
    let targetPower := cmd.value
    let maxChange := s.limits.maxRate * (1 / 100)
    if absQ (targetPower - s.powerLevel) > maxChange then
      (Except.ok (),
        { s with powerLevel :=
            s.powerLevel + (if targetPower > s.powerLevel then maxChange else -maxChange) })
    else
      (Except.ok (), { s with powerLevel := targetPower })

/-- The high-power warning condition inside `HeaterActuator::isSafeToExecute`:
`if (cmd.value > 90.0) { ... print warning ... }` — a side effect only. -/
def highPowerWarning (cmd : ActuatorCommand) : Bool :=
  decide (cmd.value > 90)

/-- Embeds `HeaterActuator::isSafeToExecute` from module.h:
`return !isEmergencyStopped() && validateCommand(cmd);` (after the warning
print, which does not touch the returned value). -/
def isSafeToExecute (s : HeaterState) (cmd : ActuatorCommand) : Bool :=
  !s.emergencyStop && validateCommand s.limits cmd

/-- Mutable state of a `MockActuator` object (test file): inherited
`emergencyStop_` and `limits_`, plus `lastCommand_` and `executeCount_`. -/
structure MockActuatorState where
  limits : Limits
  emergencyStop : Bool
  lastCommand : ℚ
  executeCount : Nat
  deriving DecidableEq, Repr

/-- A freshly constructed `MockActuator`: the constructor calls
`setLimits({0.0, 100.0, 50.0})`; `lastCommand_{0.0}`, `executeCount_{0}`. -/
def mockActuatorCtor : MockActuatorState :=
  { limits := { minValue := 0, maxValue := 100, maxRate := 50 }
    emergencyStop := false
    lastCommand := 0
    executeCount := 0 }

/-- Embeds `MockActuator::execute` from the test file: throws on
`!validateCommand(cmd)`, otherwise records `lastCommand_ = cmd.value` and
increments `executeCount_` (no emergency-stop check, no rate limiting). -/
def mockActuatorExecute (s : MockActuatorState) (cmd : ActuatorCommand) :
    Except String Unit × MockActuatorState :=
  if !(validateCommand s.limits cmd) then
    (Except.error "Invalid command", s)
  else
    (Except.ok (), { s with lastCommand := cmd.value, executeCount := s.executeCount + 1 })

/-- Mutable state of a `MockSensor` object (test file). -/
structure MockSensorState where
  state : ModuleState
  wasInited : Bool
  readCount : Nat
  deriving DecidableEq, Repr

/-- A freshly constructed `MockSensor`: `state_{UNINITIALIZED}` (Module base
member default), `initialized_{false}`, `readCount_{0}`. -/
def mockSensorCtor : MockSensorState :=
  { state := ModuleState.UNINITIALIZED, wasInited := false, readCount := 0 }

/-- The `MockSensor` initialization from the test file: sets the initialized flag
and `setState(ModuleState::READY)`, unconditionally — it never inspects the
current state and never throws. -/
def mockSensorInit (s : MockSensorState) : MockSensorState :=
  { s with wasInited := true, state := ModuleState.READY }

/-- Modelled from the spec: the bodies of `Module::start`, `Module::stop`
and `Module::shutdown` are in module.cpp, which is absent from the sources
(module.h only declares them).  Spec section 4.1: "`start()` (Ready or
Paused → Running)".  The lifecycle test agrees for the Ready case. -/
def moduleStart (s : ModuleState) : Except String ModuleState :=
  if s = ModuleState.READY ∨ s = ModuleState.PAUSED then
    Except.ok ModuleState.RUNNING
  else
    Except.error "invalid transition"

/-- Modelled from the spec: `Module::stop` (body in the absent module.cpp).
Spec section 4.1: "`stop()` (Running→Paused)".  The lifecycle test agrees. -/
def moduleStop (s : ModuleState) : Except String ModuleState :=
  if s = ModuleState.RUNNING then
    Except.ok ModuleState.PAUSED
  else
    Except.error "invalid transition"

/-- Modelled from the spec: `Module::shutdown` (body in the absent
module.cpp).  Spec section 4.1: "`shutdown()` (any state→Shutdown,
idempotent)".  The lifecycle test agrees. -/
def moduleShutdown (_ : ModuleState) : ModuleState :=
  ModuleState.SHUTDOWN

/-- The C++ `struct Config` from control_system.h with its member default values. -/
structure Config where
  sharedMemorySize : Nat := 100 * 1024 * 1024
  messageQueueSize : Nat := 10000
  enableRedundancy : Bool := false
  enableMetrics : Bool := true
  logLevel : String := "INFO"
  watchdogTimeoutMs : Nat := 5000
  deriving DecidableEq, Repr

/-- The runtime capability of a registered module: every concrete module in
the repository derives from either `SensorModule` or `ActuatorModule`. -/
inductive Capability where
  | sensor
  | actuator
  deriving DecidableEq, Repr

/-- The type argument `T` of `ControlSystem::getModule<T>`: the base class
`Module` or one of the two capability subclasses. -/
inductive ReqType where
  | base
  | sensor
  | actuator
  deriving DecidableEq, Repr

/-- Embeds `std::dynamic_pointer_cast<T>` on a `shared_ptr<Module>` whose dynamic
type has capability `c`: succeeds exactly when `T` is the base class or the
matching capability subclass. -/
def dynCast (req : ReqType) (c : Capability) : Bool :=
  match req, c with
  | ReqType.base, _ => true
  | ReqType.sensor, Capability.sensor => true
  | ReqType.actuator, Capability.actuator => true
  | _, _ => false

/-- The `modules_` map of `ControlSystem`, keyed by module name; each entry
carries the runtime capability of the registered module. -/
abbrev Registry : Type := List (String × Capability)

/-- Embeds `ControlSystem::getModule<T>(name)` from control_system.h: looks `name`
up in `modules_`; if absent returns `nullptr` (`none`); if present returns
`dynamic_pointer_cast<T>(it->second.module)`, which is `nullptr` (`none`)
unless the capability matches the requested type. -/
def getModule (modules : Registry) (name : String) (req : ReqType) :
    Option Capability :=
  match List.find? (fun p => p.1 == name) modules with
  | some p => if dynCast req p.2 then some p.2 else none
  | none => none

/-!  Theorems settling the claims C1 to C10.  -/

/-- Claim C1, counterexample to the claim as stated: a command whose value 150
is outside the configured limits, dispatched to the heater while the
emergency-stop flag is set and the power level is 5, makes `execute` throw
before the emergency-stop branch is reached — the resulting power level is
still 5, not the safe value 0. -/
theorem C1_counterexample :
    ({ limits := heaterCtor.limits, emergencyStop := true, powerLevel := 5 } :
        HeaterState).emergencyStop = true ∧
    (heaterExecute { limits := heaterCtor.limits, emergencyStop := true, powerLevel := 5 }
        { target := "heater", value := 150 }).1 = Except.error "Invalid heater command" ∧
    (heaterExecute { limits := heaterCtor.limits, emergencyStop := true, powerLevel := 5 }
        { target := "heater", value := 150 }).2.powerLevel = 5 ∧
    (5 : ℚ) ≠ 0 := by
  refine ⟨rfl, rfl, by decide, by norm_num⟩

/-- Claim C1 (amended): for every command that passes validation, dispatched
while the emergency-stop flag of the heater actuator is set,
`HeaterActuator::execute` sets the resulting power level to the safe value 0,
regardless of the value the control function computed.  (The validity
restriction is forced by `C1_counterexample`: an out-of-range command throws
before the emergency-stop branch and leaves the power level unchanged.) -/
theorem C1_emergency_stop_zeroes_valid_commands
    (s : HeaterState) (cmd : ActuatorCommand)
    (hstop : s.emergencyStop = true)
    (hvalid : validateCommand s.limits cmd = true) :
    heaterExecute s cmd = (Except.ok (), { s with powerLevel := 0 }) := by
  simp [heaterExecute, hvalid, hstop]

/-- Claim C1, witness: the in-range command value 50, dispatched while
emergency-stopped at power level 5, yields power level 0. -/
theorem C1_witness :
    validateCommand heaterCtor.limits { target := "heater", value := 50 } = true ∧
    heaterExecute { limits := heaterCtor.limits, emergencyStop := true, powerLevel := 5 }
        { target := "heater", value := 50 }
      = (Except.ok (), { limits := heaterCtor.limits, emergencyStop := true, powerLevel := 0 }) :=
  ⟨by decide,
   C1_emergency_stop_zeroes_valid_commands
     { limits := heaterCtor.limits, emergencyStop := true, powerLevel := 5 }
     { target := "heater", value := 50 } rfl (by decide)⟩

/-- Claim C2, counterexample to the claim as stated: with the heater limits
`{min=0, max=100, maxRate=10}` and the setpoints `[0, 100, 0]`, the second
dispatched value is `0.1` (the code applies a fixed per-cycle change of
`maxRate * 0.01`, never consulting the wall-clock interval between dispatches),
not the `10` the claim derives from `last + maxRate * dt` with `dt = 1s`. -/
theorem C2_counterexample :
    (heaterExecute (heaterExecute heaterCtor { target := "heater", value := 0 }).2
        { target := "heater", value := 100 }).2.powerLevel = 1 / 10 ∧
    (1 : ℚ) / 10 ≠ 10 := by
  constructor
  · norm_num [heaterExecute, heaterCtor, validateCommand, absQ]
  · norm_num

/-- Claim C2 (amended): for every in-range command whose requested delta from
the current power level exceeds `maxRate * 0.01`, the dispatched value is the
rate-limited value `last ± maxRate * 0.01` (a fixed per-cycle step; `execute`
takes no `dt`), never the raw requested value; with limits
`{min=0, max=100, maxRate=10}` and setpoints `[0, 100, 0]` the dispatched
values are `[0, 0.1, 0]`. -/
theorem C2_rate_limited_per_cycle :
    (∀ (s : HeaterState) (cmd : ActuatorCommand),
        s.emergencyStop = false → validateCommand s.limits cmd = true →
        absQ (cmd.value - s.powerLevel) > s.limits.maxRate * (1 / 100) →
        (heaterExecute s cmd).2.powerLevel
            = s.powerLevel + (if cmd.value > s.powerLevel
                then s.limits.maxRate * (1 / 100)
                else -(s.limits.maxRate * (1 / 100))) ∧
          (heaterExecute s cmd).2.powerLevel ≠ cmd.value) ∧
    (heaterExecute heaterCtor { target := "heater", value := 0 }).2.powerLevel = 0 ∧
    (heaterExecute (heaterExecute heaterCtor { target := "heater", value := 0 }).2
        { target := "heater", value := 100 }).2.powerLevel = 1 / 10 ∧
    (heaterExecute (heaterExecute (heaterExecute heaterCtor
          { target := "heater", value := 0 }).2
        { target := "heater", value := 100 }).2
        { target := "heater", value := 0 }).2.powerLevel = 0 := by
  refine ⟨fun s cmd hstop hvalid habs => ?_, ?_, ?_, ?_⟩
  · have hc : s.limits.maxRate * (100 : ℚ)⁻¹ < absQ (cmd.value - s.powerLevel) := by
      simpa using habs
    have hpow : (heaterExecute s cmd).2.powerLevel
        = s.powerLevel + (if cmd.value > s.powerLevel
            then s.limits.maxRate * (1 / 100)
            else -(s.limits.maxRate * (1 / 100))) := by
      simp [heaterExecute, hvalid, hstop, hc]
    refine ⟨hpow, ?_⟩
    rw [hpow]
    rcases lt_trichotomy cmd.value s.powerLevel with h | h | h
    · rw [if_neg (by linarith)]
      intro heq
      have habs2 : -(cmd.value - s.powerLevel) > s.limits.maxRate * (1 / 100) := by
        simpa [absQ, show cmd.value - s.powerLevel < 0 by linarith] using habs
      linarith
    · rw [if_neg (by linarith)]
      intro heq
      have habs2 : cmd.value - s.powerLevel > s.limits.maxRate * (1 / 100) := by
        simpa [absQ, show ¬ (cmd.value - s.powerLevel < 0) by linarith] using habs
      linarith
    · rw [if_pos h]
      intro heq
      have habs2 : cmd.value - s.powerLevel > s.limits.maxRate * (1 / 100) := by
        simpa [absQ, show ¬ (cmd.value - s.powerLevel < 0) by linarith] using habs
      linarith
  · norm_num [heaterExecute, heaterCtor, validateCommand, absQ]
  · norm_num [heaterExecute, heaterCtor, validateCommand, absQ]
  · norm_num [heaterExecute, heaterCtor, validateCommand, absQ]

/-- Claim C2, witness: from the fresh heater (power 0), the in-range request
100 exceeds the per-cycle step `10 * 0.01` and the dispatched value is
`0 + 10 * 0.01 = 0.1`. -/
theorem C2_witness :
    (heaterCtor.emergencyStop = false ∧
     validateCommand heaterCtor.limits { target := "heater", value := 100 } = true ∧
     absQ ((100 : ℚ) - 0) > (10 : ℚ) * (1 / 100)) ∧
    (heaterExecute heaterCtor { target := "heater", value := 100 }).2.powerLevel
      = 0 + (10 : ℚ) * (1 / 100) :=
  ⟨⟨rfl, by decide, by norm_num [absQ]⟩,
   by
    have h := (C2_rate_limited_per_cycle.1 heaterCtor
      { target := "heater", value := 100 } rfl (by decide)
      (by norm_num [absQ, heaterCtor])).1
    simpa [heaterCtor] using h⟩

/-- Claim C3: `isSafeToExecute(cmd)` returns true exactly when the module is
not emergency-stopped and the command validates against the configured limits;
the high-power warning fires exactly above 90, which is 90 percent of the
configured `maxValue = 100` of the heater, and a warned command that is
in range and not emergency-stopped is still reported safe (the warning does
not block execution). -/
theorem C3_isSafeToExecute_spec :
    (∀ (s : HeaterState) (cmd : ActuatorCommand),
        isSafeToExecute s cmd = true ↔
          (s.emergencyStop = false ∧
           s.limits.minValue ≤ cmd.value ∧ cmd.value ≤ s.limits.maxValue)) ∧
    (∀ cmd : ActuatorCommand,
        highPowerWarning cmd = true ↔ cmd.value > (9 / 10) * heaterCtor.limits.maxValue) ∧
    (∀ (s : HeaterState) (cmd : ActuatorCommand),
        highPowerWarning cmd = true → s.emergencyStop = false →
        validateCommand s.limits cmd = true → isSafeToExecute s cmd = true) := by
  refine ⟨fun s cmd => ?_, fun cmd => ?_, fun s cmd _ hstop hvalid => ?_⟩
  · simp [isSafeToExecute, validateCommand]
  · constructor
    · intro h
      have : cmd.value > 90 := by simpa [highPowerWarning] using h
      norm_num [heaterCtor]
      linarith
    · intro h
      have : cmd.value > 90 := by
        have h9 : (9 : ℚ) / 10 * heaterCtor.limits.maxValue = 90 := by
          norm_num [heaterCtor]
        linarith [h9 ▸ h]
      simpa [highPowerWarning] using this
  · simp [isSafeToExecute, hstop, hvalid]

/-- Claim C3, witness: the command value 95 triggers the high-power warning
yet `isSafeToExecute` still returns true on the non-stopped heater. -/
theorem C3_witness :
    (highPowerWarning { target := "heater", value := 95 } = true ∧
     heaterCtor.emergencyStop = false ∧
     validateCommand heaterCtor.limits { target := "heater", value := 95 } = true) ∧
    isSafeToExecute heaterCtor { target := "heater", value := 95 } = true :=
  ⟨⟨by decide, rfl, by decide⟩,
   C3_isSafeToExecute_spec.2.2 heaterCtor { target := "heater", value := 95 }
     (by decide) rfl (by decide)⟩

/-- Claim C4, counterexample to the claim as stated: calling the in-repo
`MockSensor` initialization on a module that is already `RUNNING` (past
`UNINITIALIZED`) does not fail with any error — it simply sets the state to
`READY` again. -/
theorem C4_counterexample :
    ModuleState.RUNNING ≠ ModuleState.UNINITIALIZED ∧
    mockSensorInit { state := ModuleState.RUNNING, wasInited := true, readCount := 0 }
      = { state := ModuleState.READY, wasInited := true, readCount := 0 } := by
  exact ⟨by decide, rfl⟩

/-- Claim C4 (amended): the lifecycle transitions hold as specified for
`start` (Ready or Paused to Running), `stop` (Running to Paused) and
`shutdown` (any state to the terminal Shutdown, idempotently) — these three
are modelled from the spec because module.cpp is absent — while the in-repo
initialization (`MockSensor`) always moves to Ready, never failing when the
module is already past Uninitialized. -/
theorem C4_lifecycle_transitions :
    moduleStart ModuleState.READY = Except.ok ModuleState.RUNNING ∧
    moduleStart ModuleState.PAUSED = Except.ok ModuleState.RUNNING ∧
    moduleStop ModuleState.RUNNING = Except.ok ModuleState.PAUSED ∧
    (∀ s, moduleShutdown s = ModuleState.SHUTDOWN) ∧
    (∀ s, moduleShutdown (moduleShutdown s) = moduleShutdown s) ∧
    (∀ s : MockSensorState,
        (mockSensorInit s).state = ModuleState.READY ∧ (mockSensorInit s).wasInited = true) :=
  ⟨rfl, rfl, rfl, fun _ => rfl, fun _ => rfl, fun _ => ⟨rfl, rfl⟩⟩

/-- Claim C5: `isHealthy()` returns true exactly when the module state is
`RUNNING`, and in particular returns false in each of the six other states. -/
theorem C5_isHealthy_iff_running :
    (∀ s, isHealthy s = true ↔ s = ModuleState.RUNNING) ∧
    isHealthy ModuleState.RUNNING = true ∧
    isHealthy ModuleState.UNINITIALIZED = false ∧
    isHealthy ModuleState.INITIALIZING = false ∧
    isHealthy ModuleState.READY = false ∧
    isHealthy ModuleState.PAUSED = false ∧
    isHealthy ModuleState.ERROR = false ∧
    isHealthy ModuleState.SHUTDOWN = false := by
  refine ⟨fun s => ?_, rfl, rfl, rfl, rfl, rfl, rfl, rfl⟩
  cases s <;> simp [isHealthy]

/-- Claim C6: a command validates exactly when its value lies inside the
configured `[minValue, maxValue]` range; on a command that fails validation,
both `HeaterActuator::execute` and `MockActuator::execute` raise an error and
leave the module state untouched (nothing is dispatched). -/
theorem C6_out_of_range_rejected :
    (∀ (l : Limits) (cmd : ActuatorCommand),
        validateCommand l cmd = true ↔
          (l.minValue ≤ cmd.value ∧ cmd.value ≤ l.maxValue)) ∧
    (∀ (s : HeaterState) (cmd : ActuatorCommand),
        validateCommand s.limits cmd = false →
        heaterExecute s cmd = (Except.error "Invalid heater command", s)) ∧
    (∀ (s : MockActuatorState) (cmd : ActuatorCommand),
        validateCommand s.limits cmd = false →
        mockActuatorExecute s cmd = (Except.error "Invalid command", s)) ∧
    (∀ (l : Limits) (cmd : ActuatorCommand),
        l.minValue ≤ cmd.value → cmd.value ≤ l.maxValue → validateCommand l cmd = true) := by
  refine ⟨fun l cmd => ?_, fun s cmd hv => ?_, fun s cmd hv => ?_, fun l cmd h1 h2 => ?_⟩
  · simp [validateCommand]
  · simp [heaterExecute, hv]
  · simp [mockActuatorExecute, hv]
  · simp [validateCommand, h1, h2]

/-- Claim C6, witness: on the mock actuator with limits `{0,100,50}`, the
command value 150 fails validation and `execute` errors without dispatching,
while the value 50 passes the range check — matching the in-repo test. -/
theorem C6_witness :
    validateCommand mockActuatorCtor.limits { target := "test", value := 150 } = false ∧
    mockActuatorExecute mockActuatorCtor { target := "test", value := 150 }
      = (Except.error "Invalid command", mockActuatorCtor) ∧
    validateCommand mockActuatorCtor.limits { target := "test", value := 50 } = true :=
  ⟨by decide,
   C6_out_of_range_rejected.2.2.1 mockActuatorCtor { target := "test", value := 150 } (by decide),
   C6_out_of_range_rejected.2.2.2 mockActuatorCtor.limits { target := "test", value := 50 }
     (by decide) (by decide)⟩

/-- Claim C7: the typed lookup `getModule<T>(name)` returns an empty result
when no registered module bears the name, returns an empty result when the
named module does not implement the requested capability, and returns the
typed handle when both the name and the capability match. -/
theorem C7_getModule_typed_lookup :
    (∀ (mods : Registry) (name : String) (req : ReqType),
        (∀ p ∈ mods, p.1 ≠ name) → getModule mods name req = none) ∧
    (∀ (mods : Registry) (name : String) (req : ReqType) (p : String × Capability),
        List.find? (fun q => q.1 == name) mods = some p →
        dynCast req p.2 = false → getModule mods name req = none) ∧
    (∀ (mods : Registry) (name : String) (req : ReqType) (p : String × Capability),
        List.find? (fun q => q.1 == name) mods = some p →
        dynCast req p.2 = true → getModule mods name req = some p.2) := by
  refine ⟨fun mods name req h => ?_, fun mods name req p hf hc => ?_,
    fun mods name req p hf hc => ?_⟩
  · have hnone : List.find? (fun q => q.1 == name) mods = none := by
      rw [List.find?_eq_none]
      intro x hx
      simpa using h x hx
    simp [getModule, hnone]
  · simp [getModule, hf, hc]
  · simp [getModule, hf, hc]

/-- Claim C7, witness: in a registry holding one sensor module named
`sensorA`, looking up an absent name yields `none`, requesting the actuator
capability of `sensorA` yields `none`, and the matching request yields the
typed handle. -/
theorem C7_witness :
    getModule [("sensorA", Capability.sensor)] "nosuch" ReqType.sensor = none ∧
    getModule [("sensorA", Capability.sensor)] "sensorA" ReqType.actuator = none ∧
    getModule [("sensorA", Capability.sensor)] "sensorA" ReqType.sensor
      = some Capability.sensor :=
  ⟨C7_getModule_typed_lookup.1 [("sensorA", Capability.sensor)] "nosuch" ReqType.sensor
     (by decide),
   C7_getModule_typed_lookup.2.1 [("sensorA", Capability.sensor)] "sensorA" ReqType.actuator
     ("sensorA", Capability.sensor) (by decide) rfl,
   C7_getModule_typed_lookup.2.2 [("sensorA", Capability.sensor)] "sensorA" ReqType.sensor
     ("sensorA", Capability.sensor) (by decide) rfl⟩

/-- Claim C8: a default-constructed `Config` carries exactly the documented
default values: 100MB shared memory, 10000 queue entries, redundancy off,
metrics on, log level INFO and a 5000ms watchdog timeout. -/
theorem C8_config_defaults :
    ({} : Config).sharedMemorySize = 100 * 1024 * 1024 ∧
    ({} : Config).messageQueueSize = 10000 ∧
    ({} : Config).enableRedundancy = false ∧
    ({} : Config).enableMetrics = true ∧
    ({} : Config).logLevel = "INFO" ∧
    ({} : Config).watchdogTimeoutMs = 5000 := by
  refine ⟨rfl, rfl, rfl, rfl, rfl, rfl⟩

/-- Claim C9, counterexample to the claim as stated: even under the default
(unbounded) limits, rate limiting is not inert — the in-range command value
`dblMax` dispatched from power level 0 is clamped to the per-cycle step
`maxRate * 0.01 = dblMax / 100`, so the dispatched value differs from the
requested one. -/
theorem C9_counterexample :
    validateCommand {} { target := "a", value := dblMax } = true ∧
    (heaterExecute { limits := {}, emergencyStop := false, powerLevel := 0 }
        { target := "a", value := dblMax }).1 = Except.ok () ∧
    (heaterExecute { limits := {}, emergencyStop := false, powerLevel := 0 }
        { target := "a", value := dblMax }).2.powerLevel ≠ dblMax := by
  refine ⟨by norm_num [validateCommand, dblMax], ?_, ?_⟩
  · norm_num [heaterExecute, validateCommand, absQ, dblMax]
  · norm_num [heaterExecute, validateCommand, absQ, dblMax]

/-- Claim C9 (amended): the default limits are
`{minValue = -DBL_MAX, maxValue = DBL_MAX, maxRate = DBL_MAX}` and every
finite command value passes the range check, but rate limiting is only
inert for commands whose delta from the current power level is at most
`maxRate * 0.01 = DBL_MAX / 100`; larger deltas are still clamped (see
`C9_counterexample`). -/
theorem C9_default_limits :
    ({} : Limits).minValue = -dblMax ∧
    ({} : Limits).maxValue = dblMax ∧
    ({} : Limits).maxRate = dblMax ∧
    (∀ cmd : ActuatorCommand, -dblMax ≤ cmd.value → cmd.value ≤ dblMax →
        validateCommand {} cmd = true) ∧
    (∀ (s : HeaterState) (cmd : ActuatorCommand),
        s.limits = {} → s.emergencyStop = false →
        validateCommand s.limits cmd = true →
        absQ (cmd.value - s.powerLevel) ≤ dblMax * (1 / 100) →
        (heaterExecute s cmd).2.powerLevel = cmd.value) := by
  refine ⟨rfl, rfl, rfl, fun cmd h1 h2 => ?_, fun s cmd hl hstop hvalid habs => ?_⟩
  · simp [validateCommand, h1, h2]
  · have hc : ¬ (s.limits.maxRate * (100 : ℚ)⁻¹ < absQ (cmd.value - s.powerLevel)) := by
      rw [hl]
      simp only [not_lt]
      simpa using habs
    simp [heaterExecute, hvalid, hstop, hc]

/-- Claim C9, witness: under the default limits the finite value 50 passes
the range check and, its delta from power level 0 being far below
`DBL_MAX / 100`, is dispatched unchanged. -/
theorem C9_witness :
    (-dblMax ≤ (50 : ℚ) ∧ (50 : ℚ) ≤ dblMax ∧
     validateCommand {} { target := "a", value := 50 } = true) ∧
    (heaterExecute { limits := {}, emergencyStop := false, powerLevel := 0 }
        { target := "a", value := 50 }).2.powerLevel = 50 :=
  ⟨⟨by norm_num [dblMax], by norm_num [dblMax], by norm_num [validateCommand, dblMax]⟩,
   C9_default_limits.2.2.2.2 { limits := {}, emergencyStop := false, powerLevel := 0 }
     { target := "a", value := 50 } rfl rfl (by norm_num [validateCommand, dblMax])
     (by norm_num [absQ, dblMax])⟩

/-- Claim C10: `execute` checks command validity before the emergency-stop
flag — on an out-of-range command both `HeaterActuator::execute` and
`MockActuator::execute` raise an error and leave the whole actuator state
(power level, last dispatched value) unchanged even while the emergency-stop
flag is set, rather than driving the actuator to its safe state. -/
theorem C10_validation_precedes_estop :
    (∀ (s : HeaterState) (cmd : ActuatorCommand), s.emergencyStop = true →
        validateCommand s.limits cmd = false →
        heaterExecute s cmd = (Except.error "Invalid heater command", s)) ∧
    (∀ (s : MockActuatorState) (cmd : ActuatorCommand), s.emergencyStop = true →
        validateCommand s.limits cmd = false →
        mockActuatorExecute s cmd = (Except.error "Invalid command", s)) := by
  constructor
  · intro s cmd _ hv
    simp [heaterExecute, hv]
  · intro s cmd _ hv
    simp [mockActuatorExecute, hv]

/-- Claim C10, witness: the out-of-range value 200 dispatched to the
emergency-stopped heater at power level 7 errors out and leaves the state,
power level included, exactly as it was. -/
theorem C10_witness :
    validateCommand heaterCtor.limits { target := "heater", value := 200 } = false ∧
    heaterExecute { limits := heaterCtor.limits, emergencyStop := true, powerLevel := 7 }
        { target := "heater", value := 200 }
      = (Except.error "Invalid heater command",
         { limits := heaterCtor.limits, emergencyStop := true, powerLevel := 7 }) :=
  ⟨by decide,
   C10_validation_precedes_estop.1
     { limits := heaterCtor.limits, emergencyStop := true, powerLevel := 7 }
     { target := "heater", value := 200 } rfl (by decide)⟩

end DCS
